import Mathlib

/-!
Shallow embedding of the resilient REST access layer of
`smartsensor-data-raw2qua-S3-pipeline` (src/common/auth.py and
src/common/api_client.py), together with theorems settling the frozen
claims about its rate limiting, retry, authentication, pagination and
metrics behaviour.

Modelling conventions:
* timestamps (`datetime.utcnow()`) are integers counting seconds;
* durations slept (`time.sleep`) are rationals, since `base_delay` is a
  Python float and the exponential wait is `(2 ** attempt) * base_delay`;
* the HTTP transport is abstracted as a function from the index of the
  HTTP attempt performed by `APIClient.get` to its outcome (a parsed
  response, a timeout, or a connection error), mirroring how the retry
  loop in `get` observes `self.session.get`;
* the OAuth2 token endpoint is abstracted as the `TokenResponse` it
  returns; the claims under study never exercise a failing exchange;
* response bodies (`response.json()`) are `Page` records carrying the
  two pagination fields read by `paginate` plus an opaque payload.
-/

/-- Parsed JSON body of a response: `paginate` reads `next_cursor` and
`has_more` (`response_data.get('next_cursor')`,
`response_data.get('has_more', False)`); `data` stands for the rest of
the payload. -/
structure Page where
  next_cursor : Option String := none
  has_more : Option Bool := none
  data : List Nat := []
  deriving DecidableEq, Repr

/-- An HTTP response as seen by the client: status code, the parsed
integer value of the `Retry-After` header when present, the two
advisory rate-limit headers, and the parsed JSON body. -/
structure HttpResponse where
  status : Nat
  retryAfter : Option Nat := none
  rateRemaining : Option Nat := none
  rateLimit : Option Nat := none
  body : Page := {}
  deriving DecidableEq, Repr

/-- Outcome of one `self.session.get(...)` call inside the retry loop:
a response, a `requests.exceptions.Timeout`, or any other
`requests.exceptions.RequestException` (connection refused/reset). -/
inductive TransportOutcome where
  | response (r : HttpResponse)
  | timeout
  | connError
  deriving DecidableEq, Repr

/-- Successful JSON body of the OAuth2 token endpoint:
`{access_token, expires_in?}`. -/
structure TokenResponse where
  access_token : String
  expires_in : Option Int := none
  deriving DecidableEq, Repr

/-- `OAuth2TokenManager` from src/common/auth.py: token-endpoint
configuration, the refresh buffer (`refresh_buffer_seconds`, default
300) and the cached token with its expiry. -/
structure OAuth2TokenManager where
  token_url : String := ""
  client_id : String := ""
  client_secret : String := ""
  refresh_buffer_seconds : Int := 300
  access_token : Option String := none
  token_expires_at : Option Int := none
  deriving DecidableEq, Repr

/-- `OAuth2TokenManager._needs_refresh`: true when no token or no expiry
is held (Python truthiness: an empty token string also counts as not
held), otherwise true iff `now >= expires_at - buffer`. -/
def OAuth2TokenManager.needs_refresh (m : OAuth2TokenManager) (now : Int) : Bool :=
  match m.access_token, m.token_expires_at with
  | some tkn, some e =>
      if tkn.isEmpty then true
      else decide (now ≥ e - m.refresh_buffer_seconds)
  | _, _ => true

/-- `OAuth2TokenManager._fetch_new_token` on a successful exchange:
records the token and `expires_at = now + expires_in`, with
`expires_in` defaulting to 3600 when the endpoint omits it. -/
def OAuth2TokenManager.fetch_new_token (m : OAuth2TokenManager) (now : Int)
    (tr : TokenResponse) : OAuth2TokenManager :=
  { m with
    access_token := some tr.access_token
    token_expires_at := some (now + tr.expires_in.getD 3600) }

/-- `OAuth2TokenManager.get_access_token`: refresh if `_needs_refresh`,
then return the held token. Returns the token, the updated manager and
whether a fetch happened. The `getD ""` default is unreachable: when no
refresh is needed a non-empty token is held. -/
def OAuth2TokenManager.get_access_token (m : OAuth2TokenManager) (now : Int)
    (tr : TokenResponse) : String × OAuth2TokenManager × Bool :=
  if m.needs_refresh now then
    let m' := m.fetch_new_token now tr
    (tr.access_token, m', true)
  else
    (m.access_token.getD "", m, false)

/-- `RateLimitHandler` from src/common/auth.py: `max_retries` (default
5; `APIClient` passes its own `max_retries`, default 3) and
`base_delay` (default 1.0). -/
structure RateLimitHandler where
  max_retries : Nat := 5
  base_delay : ℚ := 1
  deriving DecidableEq, Repr

/-- What one `handle_rate_limit(response, attempt)` call does: nothing
(status was not 429), raise `RuntimeError("Rate limit exceeded after
... retries")`, or sleep for the computed wait. -/
inductive RateLimitAction where
  | noop
  | raiseExceeded
  | wait (t : ℚ)
  deriving DecidableEq, Repr

/-- `RateLimitHandler.handle_rate_limit`: return early unless the
status is 429; raise once `attempt >= max_retries`; otherwise sleep for
the `Retry-After` header value when present, else for
`(2 ** attempt) * base_delay`. -/
def RateLimitHandler.handle_rate_limit (h : RateLimitHandler)
    (resp : HttpResponse) (attempt : Nat) : RateLimitAction :=
  if resp.status ≠ 429 then .noop
  else if attempt ≥ h.max_retries then .raiseExceeded
  else
    match resp.retryAfter with
    | some ra => .wait ra
    | none => .wait (2 ^ attempt * h.base_delay)

/-- Classified failures surfaced by `APIClient.get`/`post`, one
constructor per raise site: `requests.exceptions.Timeout` re-raised,
`HTTPError` from `raise_for_status`, any other `RequestException`,
the final `RuntimeError("Failed after {max_attempts} attempts")`, and
the handler's `RuntimeError("Rate limit exceeded after {attempt}
retries")`. -/
inductive ClientError where
  | timeoutErr
  | httpError (status : Nat)
  | requestErr
  | retriesExhausted (maxAttempts : Nat)
  | rateLimitExceeded (attempt : Nat)
  deriving DecidableEq, Repr

/-- `APIClient` from src/common/api_client.py, restricted to the fields
the claims touch: the optional refreshing credential provider, the
rate-limit policy (constructed as
`RateLimitHandler(max_retries=max_retries)` with the client default
`max_retries = 3`), and the two metrics counters. -/
structure APIClient where
  auth_manager : Option OAuth2TokenManager := none
  rate_limit_handler : RateLimitHandler := { max_retries := 3 }
  request_count : Nat := 0
  error_count : Nat := 0
  deriving DecidableEq, Repr

/-- Mutable state threaded through the `while attempt < max_attempts`
loop of `get`: the attempt counter, the client's two metrics counters,
plus instrumentation (number of HTTP attempts made in this run, number
of token-endpoint fetches, list of sleeps performed) and the
credential provider's state. -/
structure RunState where
  attempt : Nat
  attempts_made : Nat
  request_count : Nat
  error_count : Nat
  refresh_count : Nat
  sleeps : List ℚ
  auth : Option OAuth2TokenManager
  deriving DecidableEq, Repr

/-- The 401 branch of `get`: `self.auth_manager._fetch_new_token()`
followed by `headers = self._get_headers()` (whose `get_access_token`
fetches again only if the fresh token already needs refresh). Returns
the updated manager and how many fetches occurred. -/
def authRefresh (m : OAuth2TokenManager) (now : Int) (tr : TokenResponse) :
    OAuth2TokenManager × Nat :=
  let m1 := m.fetch_new_token now tr
  let g := m1.get_access_token now tr
  (g.2.1, 1 + (if g.2.2 then 1 else 0))

/-- `headers = self._get_headers()` before the loop: builds headers,
fetching a token when the provider holds none or a stale one. Returns
the updated provider and the number of fetches (0 or 1). -/
def initHeaders (auth : Option OAuth2TokenManager) (now : Int)
    (tr : TokenResponse) : Option OAuth2TokenManager × Nat :=
  match auth with
  | none => (none, 0)
  | some m =>
      let g := m.get_access_token now tr
      (some g.2.1, if g.2.2 then 1 else 0)

deriving instance DecidableEq for Except

/-- Result of processing one transport outcome inside the loop body:
either the call resolves (`done`) or the loop continues (`next`). -/
inductive StepRes where
  | done (s : RunState) (r : Except ClientError Page)
  | next (s : RunState)
  deriving DecidableEq, Repr

/-- One iteration body of the `get` retry loop, after
`self.request_count += 1`, dispatching on the transport outcome:
429-with-retry consults `handle_rate_limit` then increments `attempt`
and continues; 401 with an attached `auth_manager` refreshes, rebuilds
headers, increments `attempt` and continues; otherwise
`raise_for_status` surfaces `HTTPError` for any status >= 400 and a
2xx/3xx body is returned; a timeout increments `error_count` and
re-raises only on the last attempt (`attempt >= max_attempts - 1`);
any other transport failure increments `error_count` and re-raises. -/
def step (h : RateLimitHandler) (retry_on_rate_limit : Bool)
    (maxAttempts : Nat) (now : Int) (tr : TokenResponse)
    (s : RunState) (o : TransportOutcome) : StepRes :=
  match o with
  | .response r =>
      if r.status == 429 && retry_on_rate_limit then
        match h.handle_rate_limit r s.attempt with
        | .raiseExceeded => .done s (.error (.rateLimitExceeded s.attempt))
        | .wait t => .next { s with attempt := s.attempt + 1, sleeps := s.sleeps ++ [t] }
        | .noop => .next { s with attempt := s.attempt + 1 }
      else
        match r.status == 401, s.auth with
        | true, some m =>
            let p := authRefresh m now tr
            .next { s with
                    attempt := s.attempt + 1
                    auth := some p.1
                    refresh_count := s.refresh_count + p.2 }
        | _, _ =>
            -- check_rate_limit_headers only logs a warning; no control flow.
            if r.status < 400 then .done s (.ok r.body)
            else .done { s with error_count := s.error_count + 1 }
                   (.error (.httpError r.status))
  | .timeout =>
      if s.attempt ≥ maxAttempts - 1 then
        .done { s with error_count := s.error_count + 1 } (.error .timeoutErr)
      else
        .next { s with
                error_count := s.error_count + 1
                attempt := s.attempt + 1 }
  | .connError =>
      .done { s with error_count := s.error_count + 1 } (.error .requestErr)

/-- The `while attempt < max_attempts` loop of `get`. `fuel` bounds the
recursion; since every continuing iteration increments `attempt`,
running it with `fuel = maxAttempts` is exact: fuel runs out precisely
when the Python loop would exit and raise
`RuntimeError(f"Failed after {max_attempts} attempts")`. -/
def getLoop (t : Nat → TransportOutcome) (h : RateLimitHandler)
    (retry_on_rate_limit : Bool) (maxAttempts : Nat) (now : Int)
    (tr : TokenResponse) (fuel : Nat) (s : RunState) :
    RunState × Except ClientError Page :=
  match fuel with
  | 0 => (s, .error (.retriesExhausted maxAttempts))
  | fuel' + 1 =>
      if s.attempt < maxAttempts then
        match step h retry_on_rate_limit maxAttempts now tr
            { s with
              request_count := s.request_count + 1
              attempts_made := s.attempts_made + 1 } (t s.attempt) with
        | .done s2 res => (s2, res)
        | .next s2 => getLoop t h retry_on_rate_limit maxAttempts now tr fuel' s2
      else (s, .error (.retriesExhausted maxAttempts))

/-- Everything observable about one `get` call: the client afterwards
(counters and credential state), the number of HTTP attempts, the
number of token-endpoint fetches, the sleeps performed, and the
returned body or classified error. -/
structure GetResult where
  client : APIClient
  attemptsMade : Nat
  refreshes : Nat
  sleeps : List ℚ
  result : Except ClientError Page
  deriving DecidableEq, Repr

/-- `APIClient.get`: build headers, set
`max_attempts = self.rate_limit_handler.max_retries` when
`retry_on_rate_limit` else 1, and run the retry loop. -/
def APIClient.get (c : APIClient) (t : Nat → TransportOutcome)
    (retry_on_rate_limit : Bool) (now : Int) (tr : TokenResponse) : GetResult :=
  let init := initHeaders c.auth_manager now tr
  let maxAttempts := if retry_on_rate_limit then c.rate_limit_handler.max_retries else 1
  let s0 : RunState :=
    { attempt := 0
      attempts_made := 0
      request_count := c.request_count
      error_count := c.error_count
      refresh_count := init.2
      sleeps := []
      auth := init.1 }
  let out := getLoop t c.rate_limit_handler retry_on_rate_limit maxAttempts now tr maxAttempts s0
  { client := { c with
                auth_manager := out.1.auth
                request_count := out.1.request_count
                error_count := out.1.error_count }
    attemptsMade := out.1.attempts_made
    refreshes := out.1.refresh_count
    sleeps := out.1.sleeps
    result := out.2 }

/-- Value of `APIClient.get_metrics`: the two counters and
`error_rate = error_count / request_count if request_count > 0 else 0`. -/
structure Metrics where
  request_count : Nat
  error_count : Nat
  error_rate : ℚ
  deriving DecidableEq, Repr

/-- `APIClient.get_metrics`. -/
def APIClient.get_metrics (c : APIClient) : Metrics :=
  { request_count := c.request_count
    error_count := c.error_count
    error_rate :=
      if c.request_count > 0 then (c.error_count : ℚ) / (c.request_count : ℚ) else 0 }

/-- Python truthiness of the cursor read from a page
(`if not next_cursor`): present means a non-`None`, non-empty string. -/
def cursorPresent (c : Option String) : Bool :=
  match c with
  | none => false
  | some s => !s.isEmpty

/-- Python truthiness of the `max_pages` cap in
`if max_pages and page_count >= max_pages`: `None` and `0` are both
falsy, so neither ever triggers the cap. -/
def maxPagesHit (mp : Option Nat) (page_count : Nat) : Bool :=
  match mp with
  | none => false
  | some m => decide (m ≠ 0) && decide (page_count ≥ m)

/-- The `while True` loop of `APIClient.paginate`, with the underlying
`self.get` abstracted as the stream of pages it successively returns
(the cursor/`limit` threading through `params` only selects which page
the server sends and is absorbed into the stream). Each iteration
yields a page, increments `page_count`, and breaks first when the
cursor is falsy and `has_more` (default `False`) is falsy, then when
the `max_pages` cap is truthy and reached. `fuel` bounds the recursion:
`none` means the loop was still running after `fuel` iterations. -/
def paginateRun (stream : Nat → Page) (mp : Option Nat) :
    Nat → Nat → List Page → Option (List Page)
  | 0, _, _ => none
  | fuel + 1, page_count, acc =>
      let page := stream page_count
      let acc' := acc ++ [page]
      let pc' := page_count + 1
      if !cursorPresent page.next_cursor && !(page.has_more.getD false) then some acc'
      else if maxPagesHit mp pc' then some acc'
      else paginateRun stream mp fuel pc' acc'

/-- `APIClient.paginate` observed for `fuel` iterations: the list of
pages yielded when the loop breaks within `fuel` iterations, `none`
when it is still looping. -/
def paginate (stream : Nat → Page) (mp : Option Nat) (fuel : Nat) :
    Option (List Page) :=
  paginateRun stream mp fuel 0 []

/-- The stop condition the loop evaluates after yielding page `k`
(0-indexed): cursor falsy and has-more falsy on that page, or the
`max_pages` cap truthy and reached by `page_count = k + 1`. -/
def codeStop (stream : Nat → Page) (mp : Option Nat) (k : Nat) : Bool :=
  (!cursorPresent (stream k).next_cursor && !((stream k).has_more.getD false))
    || maxPagesHit mp (k + 1)

/-- The claims' termination condition after yielding page `k`: the
page's cursor is absent/falsy and its has-more flag (default false) is
false, or a cap was supplied and `pagesFetched = k + 1 >= maxPages`. -/
def specStop (stream : Nat → Page) (mp : Option Nat) (k : Nat) : Bool :=
  (!cursorPresent (stream k).next_cursor && !((stream k).has_more.getD false))
    || (match mp with
        | none => false
        | some m => decide (k + 1 ≥ m))

/-- Projection of a step result back to the run state it carries. -/
def StepRes.state : StepRes → RunState
  | .done s _ => s
  | .next s => s

/-- Token-endpoint response used in the concrete scenarios:
`expires_in` absent, so `_fetch_new_token` applies its 3600s default. -/
def tok : TokenResponse := { access_token := "fresh-token" }

/-- A 429 response carrying no `Retry-After` header. -/
def resp429 : HttpResponse := { status := 429 }

/-- A transport on which every attempt is answered 429. -/
def all429 : Nat → TransportOutcome := fun _ => .response resp429

/-- A transport on which every attempt is answered 500. -/
def t500 : Nat → TransportOutcome := fun _ => .response { status := 500 }

/-- A transport whose first attempt times out and whose second attempt
succeeds with a small payload. -/
def tmix : Nat → TransportOutcome := fun n =>
  match n with
  | 0 => .timeout
  | _ => .response { status := 200, body := { data := [7] } }

/-- A freshly constructed client: no credential provider, the client
default `max_retries = 3`, counters at zero. -/
def freshClient : APIClient := {}

/-- A page whose cursor is the same token `"abc"` forever. -/
def constPage : Page := { next_cursor := some "abc" }

/-- The page stream that never advances its cursor. -/
def constStream : Nat → Page := fun _ => constPage

/-- The two-page stream
`[{data:[1], next_cursor:"abc"}, {data:[2], has_more:false}]`. -/
def twoStream : Nat → Page := fun n =>
  match n with
  | 0 => { next_cursor := some "abc", data := [1] }
  | _ => { has_more := some false, data := [2] }

/-- Does a `get` result carry the handler's rate-limit-specific
`RuntimeError("Rate limit exceeded after ... retries")`? -/
def isRateLimitExceeded : Except ClientError Page → Bool
  | .error (.rateLimitExceeded _) => true
  | _ => false

/-- The `while True` body of `paginate` never reaches either `break` on
the never-advancing cursor stream with `max_pages=None`: each iteration
sees a truthy cursor and a falsy cap and recurses. -/
lemma paginateRun_const_none (fuel : Nat) :
    ∀ (pc : Nat) (acc : List Page),
      paginateRun constStream none fuel pc acc = none := by
  induction fuel with
  | zero => intro pc acc; rfl
  | succ f ih =>
      intro pc acc
      unfold paginateRun
      simp only [constStream, constPage, cursorPresent, maxPagesHit]
      simp only [String.isEmpty, Bool.not_true, Bool.false_and, Bool.not_false,
        if_false]
      exact ih _ _

/-- Inside `get`, `handle_rate_limit` can never raise: the 429 branch
runs only while `attempt < max_attempts`, and whenever the branch is
live `max_attempts` is the handler's own `max_retries`, so the
handler's `attempt >= max_retries` guard is false on every call. -/
lemma getLoop_not_rateLimitExceeded (t : Nat → TransportOutcome)
    (h : RateLimitHandler) (rorl : Bool) (maxAttempts : Nat) (now : Int)
    (tr : TokenResponse) (hEnv : rorl = true → maxAttempts ≤ h.max_retries) :
    ∀ (fuel : Nat) (s : RunState),
      isRateLimitExceeded (getLoop t h rorl maxAttempts now tr fuel s).2 = false := by
  intro fuel
  induction fuel with
  | zero => intro s; rfl
  | succ f ih =>
      intro s
      unfold getLoop
      by_cases hlt : s.attempt < maxAttempts
      · rw [if_pos hlt]
        cases ho : t s.attempt with
        | response r =>
            simp only [step]
            by_cases h429 : (r.status == 429 && rorl) = true
            · rw [if_pos h429]
              have hr : rorl = true := (Bool.and_eq_true _ _ |>.mp h429).2
              have hst : r.status = 429 := by
                simpa using (Bool.and_eq_true _ _ |>.mp h429).1
              have hle : s.attempt < h.max_retries :=
                lt_of_lt_of_le hlt (hEnv hr)
              unfold RateLimitHandler.handle_rate_limit
              rw [if_neg (by simp [hst]), if_neg (by omega)]
              cases r.retryAfter with
              | some ra => exact ih _
              | none => exact ih _
            · rw [if_neg h429]
              cases h401 : (r.status == 401) with
              | true =>
                  cases s.auth with
                  | some m => exact ih _
                  | none =>
                      by_cases hs : r.status < 400
                      · simp [hs, isRateLimitExceeded]
                      · simp [hs, isRateLimitExceeded]
              | false =>
                  by_cases hs : r.status < 400
                  · simp [hs, isRateLimitExceeded]
                  · simp [hs, isRateLimitExceeded]
        | timeout =>
            simp only [step]
            by_cases hlast : s.attempt ≥ maxAttempts - 1
            · simp [hlast, isRateLimitExceeded]
            · simp only [hlast, if_neg, if_false]
              exact ih _
        | connError => simp [step, isRateLimitExceeded]
      · rw [if_neg hlt]; rfl

/-- C1 (confirmed). For a 429 handled while `attempt < max_retries`,
`handle_rate_limit` sleeps for the `Retry-After` value verbatim when
the header is present, and for `baseDelay * 2^attempt` otherwise. -/
theorem claim_C1 (h : RateLimitHandler) (resp : HttpResponse) (attempt : Nat)
    (h429 : resp.status = 429) (hlt : attempt < h.max_retries) :
    (∀ ra, resp.retryAfter = some ra →
        h.handle_rate_limit resp attempt = .wait ra)
    ∧ (resp.retryAfter = none →
        h.handle_rate_limit resp attempt = .wait (h.base_delay * 2 ^ attempt)) := by
  unfold RateLimitHandler.handle_rate_limit
  rw [if_neg (by simp [h429]), if_neg (by omega)]
  constructor
  · intro ra hra; rw [hra]
  · intro hra; rw [hra, mul_comm]

/-- Witness for C1: with `base_delay = 1` and `max_retries = 5`, a 429
without `Retry-After` yields the exponential schedule 1,2,4,8,16 at
attempts 0..4, and `Retry-After: 5` yields a 5 second wait at any
attempt below the budget. -/
theorem claim_C1_witness :
    (({ max_retries := 5 } : RateLimitHandler).handle_rate_limit resp429 0 = .wait 1
      ∧ ({ max_retries := 5 } : RateLimitHandler).handle_rate_limit resp429 1 = .wait 2
      ∧ ({ max_retries := 5 } : RateLimitHandler).handle_rate_limit resp429 2 = .wait 4
      ∧ ({ max_retries := 5 } : RateLimitHandler).handle_rate_limit resp429 3 = .wait 8
      ∧ ({ max_retries := 5 } : RateLimitHandler).handle_rate_limit resp429 4 = .wait 16)
    ∧ ({ max_retries := 5 } : RateLimitHandler).handle_rate_limit
        { status := 429, retryAfter := some 5 } 3 = .wait 5 := by
  refine ⟨⟨?_, ?_, ?_, ?_, ?_⟩, ?_⟩
  · rw [(claim_C1 _ resp429 0 rfl (by norm_num)).2 rfl]; norm_num
  · rw [(claim_C1 _ resp429 1 rfl (by norm_num)).2 rfl]; norm_num
  · rw [(claim_C1 _ resp429 2 rfl (by norm_num)).2 rfl]; norm_num
  · rw [(claim_C1 _ resp429 3 rfl (by norm_num)).2 rfl]; norm_num
  · rw [(claim_C1 _ resp429 4 rfl (by norm_num)).2 rfl]; norm_num
  · exact (claim_C1 _ _ 3 rfl (by norm_num)).1 5 rfl

/-- C3 (code_bug). When 429 responses persist until the attempt budget
is gone, `get` fails with the generic
`RuntimeError("Failed after {max_attempts} attempts")` — modelled as
`retriesExhausted` — with `error_count` untouched; the handler's
rate-limit-specific raise is unreachable from `get` on every input,
because the loop bound (`attempt < max_attempts = max_retries`)
falsifies the handler's `attempt >= max_retries` guard. -/
theorem claim_C3 :
    ((freshClient.get all429 true 0 tok).result = .error (.retriesExhausted 3)
      ∧ (freshClient.get all429 true 0 tok).attemptsMade = 3
      ∧ (freshClient.get all429 true 0 tok).client.error_count = 0)
    ∧ ∀ (c : APIClient) (t : Nat → TransportOutcome) (rorl : Bool)
        (now : Int) (tr : TokenResponse),
        isRateLimitExceeded (c.get t rorl now tr).result = false := by
  constructor
  · exact ⟨by decide, by decide, by decide⟩
  · intro c t rorl now tr
    unfold APIClient.get
    apply getLoop_not_rateLimitExceeded
    intro hr
    rw [hr]
    simp

/-- C4 (code_bug). `paginate` has no repeated-cursor protection: on a
stream that returns the same cursor token `"abc"` on every page, with
`max_pages=None`, the loop is still running after any number of
iterations (it never fails, never terminates), even though the cursor
token repeats from the very first pair of pages. -/
theorem claim_C4 :
    (∀ fuel, paginate constStream none fuel = none)
    ∧ (constStream 1).next_cursor = (constStream 0).next_cursor := by
  exact ⟨fun fuel => paginateRun_const_none fuel 0 [], rfl⟩

/-- C9 (confirmed). `get_metrics` guards the error-rate division: with
`request_count = 0` it reports `error_rate = 0` instead of dividing. -/
theorem claim_C9 (c : APIClient) (h : c.request_count = 0) :
    c.get_metrics.error_rate = 0 := by
  simp [APIClient.get_metrics, h]

/-- Witness for C9 at a freshly constructed client. -/
theorem claim_C9_witness : freshClient.get_metrics.error_rate = 0 :=
  claim_C9 freshClient rfl

/-- Counterexample to C2 as stated: a 500 on the first attempt is
surfaced at once as an `HTTPError` after one attempt, although the
attempt budget (`max_retries = 3`) still had attempts remaining — the
retry loop of `get` re-enters only on 429, 401 and timeouts. -/
theorem claim_C2_counterexample :
    (freshClient.get t500 true 0 tok).result = .error (.httpError 500)
    ∧ (freshClient.get t500 true 0 tok).attemptsMade = 1
    ∧ freshClient.rate_limit_handler.max_retries = 3 := by
  exact ⟨by decide, by decide, by decide⟩

/-- Counterexample to C7 as stated: with `maxPages = 0` the claim's
termination condition (`pagesFetched >= maxPages`) holds already after
the first page, yet the loop is still running after three iterations,
because `if max_pages and ...` treats `0` as no cap at all. -/
theorem claim_C7_counterexample :
    specStop constStream (some 0) 0 = true
    ∧ paginate constStream (some 0) 3 = none := by
  exact ⟨by decide, by decide⟩

/-- Counterexample to C8 as stated: three 429-failed attempts and no
successful attempt (N = 0, M = 3) leave `request_count = 3` but
`error_count = 0`, not `M = 3`: the rate-limit path and the final
loop-exhaustion raise never touch `error_count`. -/
theorem claim_C8_counterexample :
    (freshClient.get all429 true 0 tok).result = .error (.retriesExhausted 3)
    ∧ (freshClient.get all429 true 0 tok).client.request_count = 3
    ∧ (freshClient.get all429 true 0 tok).client.error_count = 0 := by
  exact ⟨by decide, by decide, by decide⟩


/-- Unfolding one live iteration of the retry loop. -/
lemma getLoop_succ (t : Nat → TransportOutcome) (h : RateLimitHandler)
    (rorl : Bool) (mA : Nat) (now : Int) (tr : TokenResponse)
    (fuel : Nat) (s : RunState) (hlt : s.attempt < mA) :
    getLoop t h rorl mA now tr (fuel + 1) s =
      match step h rorl mA now tr
          { s with
            request_count := s.request_count + 1
            attempts_made := s.attempts_made + 1 } (t s.attempt) with
      | .done s2 res => (s2, res)
      | .next s2 => getLoop t h rorl mA now tr fuel s2 := by
  conv_lhs => rw [getLoop]
  rw [if_pos hlt]

/-- On the always-timing-out transport, each live iteration increments
`request_count`, `error_count` and the attempt counters and either
re-raises the timeout (on the last attempt) or continues, so a run
entered with `fuel = maxAttempts - attempt > 0` surfaces the timeout
with all `fuel` attempts consumed, `fuel` errors counted and no
sleeps. -/
lemma getLoop_timeout (h : RateLimitHandler) (rorl : Bool) (now : Int)
    (tr : TokenResponse) (m : Nat) :
    ∀ (fuel : Nat) (s : RunState), 0 < fuel → s.attempt + fuel = m →
      (getLoop (fun _ => .timeout) h rorl m now tr fuel s).2 = .error .timeoutErr
      ∧ (getLoop (fun _ => .timeout) h rorl m now tr fuel s).1.attempts_made
          = s.attempts_made + fuel
      ∧ (getLoop (fun _ => .timeout) h rorl m now tr fuel s).1.request_count
          = s.request_count + fuel
      ∧ (getLoop (fun _ => .timeout) h rorl m now tr fuel s).1.error_count
          = s.error_count + fuel
      ∧ (getLoop (fun _ => .timeout) h rorl m now tr fuel s).1.sleeps = s.sleeps := by
  intro fuel
  induction fuel with
  | zero => intro s h0 _; omega
  | succ f ih =>
      intro s _ hsum
      rw [getLoop_succ _ _ _ _ _ _ _ _ (by omega)]
      dsimp only [step]
      cases f with
      | zero =>
          rw [if_pos (show s.attempt ≥ m - 1 by omega)]
          dsimp only
          exact ⟨rfl, rfl, rfl, rfl, rfl⟩
      | succ f' =>
          rw [if_neg (show ¬ s.attempt ≥ m - 1 by omega)]
          have IH := ih
            { s with
              attempt := s.attempt + 1
              attempts_made := s.attempts_made + 1
              request_count := s.request_count + 1
              error_count := s.error_count + 1 }
            (Nat.succ_pos _) (by show s.attempt + 1 + (f' + 1) = m; omega)
          dsimp only at IH ⊢
          refine ⟨IH.1, ?_, ?_, ?_, IH.2.2.2.2⟩
          · rw [IH.2.1]; omega
          · rw [IH.2.2.1]; omega
          · rw [IH.2.2.2.1]; omega

/-- C2 (corrected). Within the retry loop of `get`, only timeouts are
retried: on the always-timeout transport the whole attempt budget is
consumed, with no backoff sleeps, before the timeout is surfaced; a
`{500,502,503,504}` response is surfaced immediately as an `HTTPError`
after a single attempt with attempts still remaining (transport-level
retries of 5xx live in the session adapter, outside this loop). -/
theorem claim_C2 (c : APIClient) (t : Nat → TransportOutcome) (now : Int)
    (tr : TokenResponse) (r : HttpResponse)
    (hm : 1 ≤ c.rate_limit_handler.max_retries) :
    (t 0 = .response r →
      (r.status = 500 ∨ r.status = 502 ∨ r.status = 503 ∨ r.status = 504) →
      (c.get t true now tr).result = .error (.httpError r.status)
        ∧ (c.get t true now tr).attemptsMade = 1)
    ∧ ((c.get (fun _ => .timeout) true now tr).result = .error .timeoutErr
        ∧ (c.get (fun _ => .timeout) true now tr).attemptsMade
            = c.rate_limit_handler.max_retries
        ∧ (c.get (fun _ => .timeout) true now tr).sleeps = []) := by
  obtain ⟨k, hk⟩ : ∃ k, c.rate_limit_handler.max_retries = k + 1 :=
    ⟨c.rate_limit_handler.max_retries - 1, by omega⟩
  constructor
  · intro ht0 hst
    simp only [APIClient.get, hk, if_true]
    rw [getLoop_succ _ _ _ _ _ _ _ _ (by dsimp only; omega)]
    dsimp only
    rw [ht0]
    rcases hst with h5 | h5 | h5 | h5 <;>
      · dsimp only [step]
        rw [h5]
        norm_num
  · simp only [APIClient.get, hk, if_true]
    have L := getLoop_timeout c.rate_limit_handler true now tr (k + 1) (k + 1)
      { attempt := 0
        attempts_made := 0
        request_count := c.request_count
        error_count := c.error_count
        refresh_count := (initHeaders c.auth_manager now tr).2
        sleeps := []
        auth := (initHeaders c.auth_manager now tr).1 }
      (Nat.succ_pos _) (by dsimp only; omega)
    dsimp only at L ⊢
    refine ⟨L.1, ?_, L.2.2.2.2⟩
    rw [L.2.1]
    omega

/-- Witness for C2: concrete instances of both conjuncts, on the
default client (`max_retries = 3`). -/
theorem claim_C2_witness :
    ((freshClient.get t500 true 0 tok).result = .error (.httpError 500)
      ∧ (freshClient.get t500 true 0 tok).attemptsMade = 1)
    ∧ ((freshClient.get (fun _ => .timeout) true 0 tok).result = .error .timeoutErr
        ∧ (freshClient.get (fun _ => .timeout) true 0 tok).attemptsMade = 3
        ∧ (freshClient.get (fun _ => .timeout) true 0 tok).sleeps = []) := by
  have h := claim_C2 freshClient t500 0 tok { status := 500 } (by decide)
  exact ⟨h.1 rfl (Or.inl rfl), h.2⟩

/-- No branch of the loop body changes `request_count` or
`attempts_made`: only the loop head bumps them, once per attempt. -/
lemma step_counts (h : RateLimitHandler) (rorl : Bool) (mA : Nat)
    (now : Int) (tr : TokenResponse) (s : RunState) (o : TransportOutcome) :
    (step h rorl mA now tr s o).state.request_count = s.request_count
    ∧ (step h rorl mA now tr s o).state.attempts_made = s.attempts_made := by
  cases o with
  | response r =>
      dsimp only [step]
      by_cases h429 : (r.status == 429 && rorl) = true
      · rw [if_pos h429]
        cases h.handle_rate_limit r s.attempt <;> exact ⟨rfl, rfl⟩
      · rw [if_neg h429]
        cases h401 : (r.status == 401) with
        | true =>
            cases s.auth with
            | some m => exact ⟨rfl, rfl⟩
            | none =>
                by_cases hs : r.status < 400
                · rw [if_pos hs]; exact ⟨rfl, rfl⟩
                · rw [if_neg hs]; exact ⟨rfl, rfl⟩
        | false =>
            cases s.auth <;>
              · by_cases hs : r.status < 400
                · rw [if_pos hs]; exact ⟨rfl, rfl⟩
                · rw [if_neg hs]; exact ⟨rfl, rfl⟩
  | timeout =>
      dsimp only [step]
      by_cases hs : s.attempt ≥ mA - 1
      · rw [if_pos hs]; exact ⟨rfl, rfl⟩
      · rw [if_neg hs]; exact ⟨rfl, rfl⟩
  | connError => exact ⟨rfl, rfl⟩

/-- Across a whole run of the loop, the increase of `request_count`
equals the increase of `attempts_made`. -/
lemma getLoop_request_eq_attempts (t : Nat → TransportOutcome)
    (h : RateLimitHandler) (rorl : Bool) (mA : Nat) (now : Int)
    (tr : TokenResponse) :
    ∀ (fuel : Nat) (s : RunState),
      (getLoop t h rorl mA now tr fuel s).1.request_count + s.attempts_made
        = (getLoop t h rorl mA now tr fuel s).1.attempts_made + s.request_count := by
  intro fuel
  induction fuel with
  | zero => intro s; dsimp only [getLoop]; omega
  | succ f ih =>
      intro s
      by_cases hlt : s.attempt < mA
      · rw [getLoop_succ _ _ _ _ _ _ _ _ hlt]
        have hc := step_counts h rorl mA now tr
          { s with
            request_count := s.request_count + 1
            attempts_made := s.attempts_made + 1 } (t s.attempt)
        cases hstep : step h rorl mA now tr
            { s with
              request_count := s.request_count + 1
              attempts_made := s.attempts_made + 1 } (t s.attempt) with
        | done s2 res =>
            rw [hstep] at hc
            dsimp only [StepRes.state] at hc
            dsimp only
            omega
        | next s2 =>
            rw [hstep] at hc
            dsimp only [StepRes.state] at hc
            dsimp only
            have := ih s2
            omega
      · unfold getLoop
        rw [if_neg hlt]
        dsimp only
        omega

/-- C8 (corrected). Every HTTP attempt increments `requestCount`
(the post-run counter is the pre-run counter plus `attemptsMade`), but
`errorCount` counts only the exception paths (timeouts, `HTTPError`,
connection failures): 429 rate-limited attempts, 401 refresh attempts
and the final loop-exhaustion raise never touch it. Concretely: three
rate-limited attempts ending in exhaustion report
`{requestCount 3, errorCount 0, errorRate 0}`; one timeout then one
success report `{2, 1, 1/2}`; three timeouts report `{3, 3, 1}`. -/
theorem claim_C8 :
    (∀ (c : APIClient) (t : Nat → TransportOutcome) (rorl : Bool)
        (now : Int) (tr : TokenResponse),
        (c.get t rorl now tr).client.request_count
          = c.request_count + (c.get t rorl now tr).attemptsMade)
    ∧ (freshClient.get all429 true 0 tok).client.get_metrics
        = { request_count := 3, error_count := 0, error_rate := 0 }
    ∧ ((freshClient.get tmix true 0 tok).client.get_metrics
        = { request_count := 2, error_count := 1, error_rate := 1/2 }
       ∧ (freshClient.get tmix true 0 tok).result = .ok { data := [7] })
    ∧ ((freshClient.get (fun _ => .timeout) true 0 tok).client.get_metrics
        = { request_count := 3, error_count := 3, error_rate := 1 }
       ∧ (freshClient.get (fun _ => .timeout) true 0 tok).result
          = .error .timeoutErr) := by
  refine ⟨?_, ?_, ⟨?_, by decide⟩, ?_, by decide⟩
  · intro c t rorl now tr
    simp only [APIClient.get]
    have := getLoop_request_eq_attempts t c.rate_limit_handler rorl
      (if rorl then c.rate_limit_handler.max_retries else 1) now tr
      (if rorl then c.rate_limit_handler.max_retries else 1)
      { attempt := 0
        attempts_made := 0
        request_count := c.request_count
        error_count := c.error_count
        refresh_count := (initHeaders c.auth_manager now tr).2
        sleeps := []
        auth := (initHeaders c.auth_manager now tr).1 }
    dsimp only at this ⊢
    omega
  · norm_num [APIClient.get, APIClient.get_metrics, getLoop, step, initHeaders,
      freshClient, all429, resp429, RateLimitHandler.handle_rate_limit]
  · norm_num [APIClient.get, APIClient.get_metrics, getLoop, step, initHeaders,
      freshClient, tmix]
  · norm_num [APIClient.get, APIClient.get_metrics, getLoop, step, initHeaders,
      freshClient]

/-- What the single permitted attempt of a `retry_on_rate_limit=False`
call resolves to, as a function of the first transport outcome: a
timeout or connection error is re-raised, a 401 with an attached
refreshing provider refreshes once and then exhausts the budget of 1,
any status below 400 returns the parsed body, and anything else
(including 429) raises `HTTPError`. -/
def singleAttemptOutcome (hasAuth : Bool) (o : TransportOutcome) :
    Except ClientError Page :=
  match o with
  | .timeout => .error .timeoutErr
  | .connError => .error .requestErr
  | .response r =>
      if r.status == 401 && hasAuth then .error (.retriesExhausted 1)
      else if r.status < 400 then .ok r.body
      else .error (.httpError r.status)

/-- C10 (confirmed). With `retry_on_rate_limit=False` the attempt
budget is exactly 1: every call makes exactly one HTTP attempt, sleeps
never, and resolves according to that single outcome — in particular a
timeout, a 429 or any other non-2xx failure is surfaced immediately
with no retry and no backoff wait, and a 2xx body is returned
normally. -/
theorem claim_C10 (c : APIClient) (t : Nat → TransportOutcome) (now : Int)
    (tr : TokenResponse) :
    (c.get t false now tr).attemptsMade = 1
    ∧ (c.get t false now tr).sleeps = []
    ∧ (c.get t false now tr).result
        = singleAttemptOutcome c.auth_manager.isSome (t 0) := by
  simp only [APIClient.get, Bool.false_eq_true, if_false]
  rw [getLoop_succ _ _ _ _ _ _ _ _ (by dsimp only; omega)]
  dsimp only
  cases ho : t 0 with
  | timeout =>
      dsimp only [step, singleAttemptOutcome]
      rw [if_pos (by omega : (0:Nat) ≥ 1 - 1)]
      exact ⟨rfl, rfl, rfl⟩
  | connError => exact ⟨rfl, rfl, rfl⟩
  | response r =>
      cases hauth : c.auth_manager with
      | none =>
          cases h401 : (r.status == 401) with
          | true =>
              by_cases hs : r.status < 400 <;>
                simp [step, singleAttemptOutcome, initHeaders, h401, hs]
          | false =>
              by_cases hs : r.status < 400 <;>
                simp [step, singleAttemptOutcome, initHeaders, h401, hs]
      | some m =>
          cases h401 : (r.status == 401) with
          | true => simp [step, singleAttemptOutcome, initHeaders, h401, getLoop]
          | false =>
              by_cases hs : r.status < 400 <;>
                simp [step, singleAttemptOutcome, initHeaders, h401, hs]

/-- C6 (confirmed). While a (non-empty) token and its expiry are held,
`get_access_token` fetches a new token if and only if
`now >= expires_at - refresh_buffer_seconds`; below that threshold the
held token is returned with the manager unchanged and no fetch. -/
theorem claim_C6 (m : OAuth2TokenManager) (now : Int) (tr : TokenResponse)
    (tkn : String) (e : Int)
    (htok : m.access_token = some tkn) (hne : tkn.isEmpty = false)
    (hexp : m.token_expires_at = some e) :
    ((m.get_access_token now tr).2.2 = true
        ↔ now ≥ e - m.refresh_buffer_seconds)
    ∧ (now < e - m.refresh_buffer_seconds →
        m.get_access_token now tr = (tkn, m, false)) := by
  have hnr : m.needs_refresh now = decide (now ≥ e - m.refresh_buffer_seconds) := by
    unfold OAuth2TokenManager.needs_refresh
    rw [htok, hexp]
    simp [hne]
  unfold OAuth2TokenManager.get_access_token
  rw [hnr]
  constructor
  · by_cases hc : now ≥ e - m.refresh_buffer_seconds
    · simp [hc]
    · simp [hc]
  · intro hlt
    have hc : ¬ (now ≥ e - m.refresh_buffer_seconds) := by omega
    simp [hc, htok]

/-- Credential manager used as the C6 witness: a non-empty token with
expiry 600, under the default 300-second buffer. -/
def m6 : OAuth2TokenManager :=
  { access_token := some "held-token", token_expires_at := some 600 }

/-- Witness for C6: at `now = 0` the token has 10 minutes left against
the 5-minute default buffer and is returned unchanged with no fetch; at
`now = 300` the threshold is reached and a fetch occurs. -/
theorem claim_C6_witness :
    m6.get_access_token 0 tok = ("held-token", m6, false)
    ∧ (m6.get_access_token 300 tok).2.2 = true := by
  constructor
  · exact (claim_C6 m6 0 tok "held-token" 600 rfl rfl rfl).2 (by norm_num [m6])
  · exact (claim_C6 m6 300 tok "held-token" 600 rfl rfl rfl).1.mpr (by norm_num [m6])

/-- One loop iteration on a 401 response with an attached refreshing
provider: refresh, rebuild headers, bump `attempt`, continue — no
sleep, no error count. -/
lemma step_401 (h : RateLimitHandler) (mA : Nat) (now : Int)
    (tr : TokenResponse) (s : RunState) (r : HttpResponse)
    (m : OAuth2TokenManager) (hst : r.status = 401)
    (hauth : s.auth = some m) :
    step h true mA now tr s (.response r) =
      .next { s with
              attempt := s.attempt + 1
              auth := some (authRefresh m now tr).1
              refresh_count := s.refresh_count + (authRefresh m now tr).2 } := by
  dsimp only [step]
  rw [hst, hauth]
  norm_num

/-- One loop iteration on a 200 response: the parsed body is returned
and the loop ends. -/
lemma step_ok (h : RateLimitHandler) (rorl : Bool) (mA : Nat) (now : Int)
    (tr : TokenResponse) (s : RunState) (r : HttpResponse)
    (hst : r.status = 200) :
    step h rorl mA now tr s (.response r) = .done s (.ok r.body) := by
  dsimp only [step]
  rw [hst]
  norm_num

/-- C5 (confirmed). On a 401 answered to the first attempt while a
refreshing provider holding a valid token is attached, `get` refreshes
exactly once (the rebuild of headers does not fetch again since the
fresh token is valid), increments the attempt, retries immediately
with no sleep, and returns the successful second response; a
subsequent identical call on the resulting client succeeds with no
further refresh. -/
theorem claim_C5 (c : APIClient) (m : OAuth2TokenManager)
    (t : Nat → TransportOutcome) (now : Int) (tr : TokenResponse)
    (r1 r2 : HttpResponse)
    (hauth : c.auth_manager = some m)
    (hvalid : m.needs_refresh now = false)
    (hfresh : (m.fetch_new_token now tr).needs_refresh now = false)
    (ht0 : t 0 = .response r1) (h401 : r1.status = 401)
    (ht1 : t 1 = .response r2) (h200 : r2.status = 200)
    (hm : 2 ≤ c.rate_limit_handler.max_retries) :
    (c.get t true now tr).refreshes = 1
    ∧ (c.get t true now tr).attemptsMade = 2
    ∧ (c.get t true now tr).sleeps = []
    ∧ (c.get t true now tr).result = .ok r2.body
    ∧ ((c.get t true now tr).client.get (fun _ => .response r2) true now tr).refreshes = 0
    ∧ ((c.get t true now tr).client.get (fun _ => .response r2) true now tr).result
        = .ok r2.body := by
  obtain ⟨k, hk⟩ : ∃ k, c.rate_limit_handler.max_retries = k + 2 :=
    ⟨c.rate_limit_handler.max_retries - 2, by omega⟩
  have hinit : initHeaders c.auth_manager now tr = (some m, 0) := by
    rw [hauth]
    simp [initHeaders, OAuth2TokenManager.get_access_token, hvalid]
  have hrefresh : authRefresh m now tr = (m.fetch_new_token now tr, 1) := by
    simp [authRefresh, OAuth2TokenManager.get_access_token, hfresh]
  have hinit2 : initHeaders (some (m.fetch_new_token now tr)) now tr
      = (some (m.fetch_new_token now tr), 0) := by
    simp [initHeaders, OAuth2TokenManager.get_access_token, hfresh]
  simp only [APIClient.get, hk, if_true, hinit]
  try dsimp only
  rw [getLoop_succ _ _ _ _ _ _ _ _ (by dsimp only; omega), ht0]
  rw [step_401 _ _ _ _ _ _ _ h401 rfl]
  try dsimp only
  rw [getLoop_succ _ _ _ _ _ _ _ _ (by dsimp only; omega)]
  rw [show t (0 + 1) = TransportOutcome.response r2 from ht1]
  rw [step_ok _ _ _ _ _ _ _ h200]
  rw [hrefresh]
  try dsimp only
  refine ⟨rfl, rfl, rfl, rfl, ?_, ?_⟩
  · simp only [APIClient.get, hk, if_true, hinit2]
    try dsimp only
    rw [getLoop_succ _ _ _ _ _ _ _ _ (by dsimp only; omega)]
    rw [step_ok _ _ _ _ _ _ _ h200]
  · simp only [APIClient.get, hk, if_true, hinit2]
    try dsimp only
    rw [getLoop_succ _ _ _ _ _ _ _ _ (by dsimp only; omega)]
    rw [step_ok _ _ _ _ _ _ _ h200]

/-- Credential manager for the C5 witness: a valid token far from
expiry at `now = 0`. -/
def m5 : OAuth2TokenManager :=
  { access_token := some "old-token", token_expires_at := some 4000 }

/-- Client for the C5 witness: the refreshing provider `m5` attached,
default `max_retries = 3`. -/
def c5c : APIClient := { auth_manager := some m5 }

/-- The 200 response returned after the refresh in the C5 witness. -/
def r200w : HttpResponse := { status := 200, body := { data := [9] } }

/-- Transport for the C5 witness: 401 on the first attempt, 200 with a
payload afterwards. -/
def t5 : Nat → TransportOutcome := fun n =>
  match n with
  | 0 => .response { status := 401 }
  | _ => .response r200w

/-- Witness for C5 at the concrete 401-then-200 scenario. -/
theorem claim_C5_witness :
    (c5c.get t5 true 0 tok).refreshes = 1
    ∧ (c5c.get t5 true 0 tok).attemptsMade = 2
    ∧ (c5c.get t5 true 0 tok).sleeps = []
    ∧ (c5c.get t5 true 0 tok).result = .ok { data := [9] }
    ∧ ((c5c.get t5 true 0 tok).client.get (fun _ => .response r200w) true 0 tok).refreshes = 0
    ∧ ((c5c.get t5 true 0 tok).client.get (fun _ => .response r200w) true 0 tok).result
        = .ok { data := [9] } := by
  have h := claim_C5 c5c m5 t5 0 tok { status := 401 } r200w rfl (by decide)
    (by decide) rfl rfl rfl rfl (by decide)
  exact h

/-- A run of `paginate` breaks out of the loop exactly at the first
page index whose stop condition is true, yielding that page and all
before it. -/
lemma paginateRun_stops (stream : Nat → Page) (mp : Option Nat) :
    ∀ (k fuel pc : Nat) (acc : List Page),
      (∀ j, j < k → codeStop stream mp (pc + j) = false) →
      codeStop stream mp (pc + k) = true → k < fuel →
      paginateRun stream mp fuel pc acc
        = some (acc ++ (List.range (k + 1)).map (fun i => stream (pc + i))) := by
  intro k
  induction k with
  | zero =>
      intro fuel pc acc _ hstop hlt
      obtain ⟨f, rfl⟩ : ∃ f, fuel = f + 1 := ⟨fuel - 1, by omega⟩
      rw [Nat.add_zero] at hstop
      unfold codeStop at hstop
      unfold paginateRun
      dsimp only
      rw [Bool.or_eq_true] at hstop
      rcases hstop with h1 | h2
      · rw [if_pos h1]
        rw [show List.range 1 = [0] from rfl]
        simp
      · by_cases h1 : (!cursorPresent (stream pc).next_cursor
            && !((stream pc).has_more.getD false)) = true
        · rw [if_pos h1]
          rw [show List.range 1 = [0] from rfl]
          simp
        · rw [if_neg h1, if_pos h2]
          rw [show List.range 1 = [0] from rfl]
          simp
  | succ n ih =>
      intro fuel pc acc hpre hstop hlt
      obtain ⟨f, rfl⟩ : ∃ f, fuel = f + 1 := ⟨fuel - 1, by omega⟩
      have h0 := hpre 0 (Nat.succ_pos _)
      rw [Nat.add_zero] at h0
      unfold codeStop at h0
      obtain ⟨h1, h2⟩ := Bool.or_eq_false_iff.mp h0
      unfold paginateRun
      dsimp only
      rw [if_neg (by simp [h1]), if_neg (by simp [h2])]
      rw [ih f (pc + 1) (acc ++ [stream pc])
        (fun j hj => by
          have := hpre (j + 1) (by omega)
          rwa [show pc + (j + 1) = pc + 1 + j by omega] at this)
        (by
          have := hstop
          rwa [show pc + (n + 1) = pc + 1 + n by omega] at this)
        (by omega)]
      have hfun : (fun i => stream (pc + 1 + i))
          = ((fun i => stream (pc + i)) ∘ Nat.succ) := by
        funext i
        simp only [Function.comp_apply]
        congr 1
        omega
      congr 1
      conv_rhs => rw [List.range_succ_eq_map, List.map_cons, List.map_map]
      rw [List.append_assoc, List.singleton_append, hfun]
      simp

/-- As long as no page's stop condition is true, the loop keeps
running: within any fuel bound it has not terminated. -/
lemma paginateRun_noStop (stream : Nat → Page) (mp : Option Nat) :
    ∀ (fuel pc : Nat) (acc : List Page),
      (∀ j, j < fuel → codeStop stream mp (pc + j) = false) →
      paginateRun stream mp fuel pc acc = none := by
  intro fuel
  induction fuel with
  | zero => intro pc acc _; rfl
  | succ f ih =>
      intro pc acc hpre
      have h0 := hpre 0 (Nat.succ_pos _)
      rw [Nat.add_zero] at h0
      unfold codeStop at h0
      obtain ⟨h1, h2⟩ := Bool.or_eq_false_iff.mp h0
      unfold paginateRun
      dsimp only
      rw [if_neg (by simp [h1]), if_neg (by simp [h2])]
      exact ih (pc + 1) _ (fun j hj => by
        have := hpre (j + 1) (by omega)
        rwa [show pc + (j + 1) = pc + 1 + j by omega] at this)

/-- C7 (corrected). `paginate` terminates exactly at the first page
whose cursor is falsy with `has_more` false, or — when `maxPages` is a
positive cap — once `pagesFetched >= maxPages`; for positive caps the
cap test is exactly `pagesFetched >= maxPages`, but `maxPages = 0` is
falsy in Python and imposes no cap at all. The two example traces hold:
the two-page stream yields exactly 2 pages, and `maxPages = 1` over the
unending cursor stream yields exactly 1 page. -/
theorem claim_C7 :
    (∀ (stream : Nat → Page) (mp : Option Nat) (k fuel : Nat),
        (∀ j, j < k → codeStop stream mp j = false) →
        codeStop stream mp k = true → k < fuel →
        paginate stream mp fuel = some ((List.range (k + 1)).map stream))
    ∧ (∀ (stream : Nat → Page) (mp : Option Nat) (fuel : Nat),
        (∀ j, j < fuel → codeStop stream mp j = false) →
        paginate stream mp fuel = none)
    ∧ (∀ (m pc : Nat), 0 < m → maxPagesHit (some m) pc = decide (pc ≥ m))
    ∧ paginate twoStream none 10
        = some [{ next_cursor := some "abc", data := [1] },
                { has_more := some false, data := [2] }]
    ∧ paginate constStream (some 1) 10 = some [constPage] := by
  refine ⟨?_, ?_, ?_, by decide, by decide⟩
  · intro stream mp k fuel hpre hstop hlt
    unfold paginate
    rw [paginateRun_stops stream mp k fuel 0 []
      (fun j hj => by simpa using hpre j hj) (by simpa using hstop) hlt]
    simp
  · intro stream mp fuel hpre
    exact paginateRun_noStop stream mp fuel 0 []
      (fun j hj => by simpa using hpre j hj)
  · intro m pc hm
    simp [maxPagesHit, show m ≠ 0 by omega]

/-- Witness for C7: the first-stop law applied to the two-page stream
(stop at page index 1), the no-stop law applied to the unending cursor
stream with no cap, and the positive-cap law at `maxPages = 2`. -/
theorem claim_C7_witness :
    paginate twoStream none 5 = some ((List.range 2).map twoStream)
    ∧ paginate constStream none 4 = none
    ∧ maxPagesHit (some 2) 3 = decide (3 ≥ 2) := by
  refine ⟨claim_C7.1 twoStream none 1 5 ?_ (by decide) (by decide),
          claim_C7.2.1 constStream none 4 ?_,
          claim_C7.2.2.1 2 3 (by decide)⟩
  · intro j hj
    have hj0 : j = 0 := by omega
    subst hj0
    decide
  · intro j hj
    have hj0 : codeStop constStream none j = codeStop constStream none 0 := rfl
    rw [hj0]
    decide
